import Mathlib

/-!
Shallow embedding of `src/PythonLinter.py` (a Sublime Text linting plugin).

The embedding keeps the source's names where Lean allows it:
`Error` (the diagnostic record), `upper_first`, the `Pep8Reporter.error`
and `PyFlakesReporter` callbacks, and the `PythonLintCommand` helpers
`_merge_errors`, `_format_error`, `_get_description`, `_on_select`
(modelled as `merge_errors`, `format_error`, `get_description`,
`on_select`).  Python string primitives used by the code (`str.split`,
`str.strip`, `str.lstrip`, `str.find`, `str.rjust`, `str.startswith`)
are embedded explicitly.  Operations that can raise in Python
(`None.startswith`, `split(...)[1]` on a space-free string) return
`Except`/`Option`; everything else is total, as in the source.
Host-editor calls (`view.substr`, `view.text_point`) are external
collaborators: the looked-up line text is a parameter, and a buffer
position is represented by the `(row, column)` pair handed to the host.
-/

namespace PythonLinter

/-- `Error = namedtuple('Error', ['code', 'line', 'offset', 'text'])`.
`code` is `None` for every PyFlakes diagnostic, a rule string for PEP8. -/
structure Error where
  code : Option String
  line : Nat
  offset : Nat
  text : String
deriving DecidableEq, Repr

/-- `def upper_first(s): return s[:1].upper() + s[1:]` — uppercases the
first character (a no-op when that character has no uppercase form). -/
def upper_first (s : String) : String :=
  match s.data with
  | [] => String.mk []
  | ch :: rest => String.mk (ch.toUpper :: rest)

/-- Python `code.startswith(ignore)`. -/
def startswith (s pre : String) : Bool :=
  pre.data.isPrefixOf s.data

/-- Python `text.split(' ', 1)`: the part after the first space, or
`none` when the string holds no space (then `[1]` raises IndexError). -/
def splitRest : List Char → Option (List Char)
  | [] => none
  | c :: rest => if c = ' ' then some rest else splitRest rest

/-- Python whitespace for `str.strip` / `str.lstrip` (ASCII part). -/
def isPySpace (c : Char) : Bool :=
  c = ' ' || c = '\t' || c = '\n' || c = '\r' || c = '\x0b' || c = '\x0c'

/-- Python `s.strip()`: drop leading and trailing whitespace. -/
def strip (s : String) : String :=
  String.mk (((s.data.dropWhile isPySpace).reverse.dropWhile isPySpace).reverse)

/-- Number of leading whitespace characters:
`len(text) - len(text.lstrip())`. -/
def leading_count (s : String) : Nat :=
  s.length - (s.data.dropWhile isPySpace).length

/-- First index of `pat` inside `hay` (`str.find` before the `-1` coding). -/
def findSub (hay pat : List Char) : Option Nat :=
  match hay with
  | [] => if pat.isEmpty then some 0 else none
  | _ :: rest =>
    if pat.isPrefixOf hay then some 0
    else (findSub rest pat).map (· + 1)

/-- Python `s.find(pat)`: first index, `-1` when absent. -/
def strFind (s pat : String) : Int :=
  match findSub s.data pat.data with
  | some i => (i : Int)
  | none => -1

/-- Replace every occurrence of a non-empty `pat`, scanning left to
right (the effect of `str.format` substituting the one remaining
placeholder).  The fuel is the list length, enough for every pass. -/
def replaceAux : Nat → List Char → List Char → List Char → List Char
  | 0, l, _, _ => l
  | _ + 1, [], _, _ => []
  | n + 1, c :: rest, pat, repl =>
    if pat.isPrefixOf (c :: rest) ∧ ¬pat.isEmpty then
      repl ++ replaceAux n ((c :: rest).drop pat.length) pat repl
    else c :: replaceAux n rest pat repl

/-- String version of `replaceAux`. -/
def pyReplace (s pat repl : String) : String :=
  String.mk (replaceAux s.data.length s.data pat.data repl.data)

/-- Python `s.rjust(width)`: left-pad with spaces up to `width`;
a width at most `len(s)` (negative included) returns `s` unchanged. -/
def rjust (s : String) (width : Int) : String :=
  if (s.length : Int) < width then
    String.mk (List.replicate (width - s.length).toNat ' ') ++ s
  else s

-- ---- REPORTERS

/-- `Pep8Reporter.error`: when the backend's `super().error` returned a
truthy code, append
`Error(code, line_offset + line_number, offset, upper_first(text.split(' ', 1)[1].strip()))`;
`text.split(' ', 1)[1]` raises IndexError when `text` holds no space. -/
def pep8_report_error (line_offset : Nat) (error_list : List Error)
    (code : Option String) (line_number off : Nat) (text : String) :
    Except String (List Error) :=
  match code with
  | none => Except.ok error_list
  | some c =>
    match splitRest text.data with
    | none => Except.error "IndexError"
    | some rest =>
      Except.ok (error_list ++
        [⟨some c, line_offset + line_number, off, upper_first (strip (String.mk rest))⟩])

/-- The three PyFlakes reporter callbacks.  `flakeMsg` carries the
backend-supplied `error.message % error.message_args` already applied,
since template and arguments are backend data. -/
inductive PFEvent where
  | unexpected (filename msg : String)
  | synErr (filename msg : String) (lineno off : Nat) (text : String)
  | flake (lineno col : Nat) (flakeMsg : String)

/-- One `PyFlakesReporter` callback firing: each appends a single
`Error` with `code = None`, `unexpectedError` at location `(0, 0)`. -/
def pyflakes_report (error_list : List Error) : PFEvent → List Error
  | PFEvent.unexpected _ msg => error_list ++ [⟨none, 0, 0, upper_first msg⟩]
  | PFEvent.synErr _ msg lineno off _ => error_list ++ [⟨none, lineno, off, upper_first msg⟩]
  | PFEvent.flake lineno col m => error_list ++ [⟨none, lineno, col, upper_first m⟩]

-- ---- MERGE

/-- `any(error.code.startswith(ignore) for ignore in ignore_list)`:
evaluated eagerly, before the `error.code is None` test, so a `None`
code with a non-empty ignore list raises AttributeError. -/
def anyIgnored (code : Option String) : List String → Except String Bool
  | [] => Except.ok false
  | ig :: rest =>
    match code with
    | none => Except.error "AttributeError"
    | some c => if startswith c ig then Except.ok true else anyIgnored (some c) rest

/-- One iteration of the `_merge_errors` loop body. -/
def merge_step (ignore_list : List String) (acc : List Error) (e : Error) :
    Except String (List Error) := do
  let ignored ← anyIgnored e.code ignore_list
  if e.code.isNone || !ignored then
    pure (acc ++ [e])
  else
    pure acc

/-- `PythonLintCommand._merge_errors`: iterate PyFlakes diagnostics then
PEP8 diagnostics, appending each that survives the ignore filter. -/
def merge_errors (pyflakes_list pep8_list : List Error)
    (ignore_list : List String) : Except String (List Error) :=
  (pyflakes_list ++ pep8_list).foldlM (merge_step ignore_list) []

/-- The filter `_merge_errors` applies on the runs where it succeeds:
keep when `code` is `None` or no ignore entry is a prefix of it. -/
def keep (ignore_list : List String) (e : Error) : Bool :=
  match e.code with
  | none => true
  | some c => !(ignore_list.any fun ig => startswith c ig)

-- ---- PRESENTER

/-- A parsed `error_format` template string: literal pieces and the
`\x7bcode\x7d` / `\x7btext\x7d` placeholders that
`error_format.format(code=..., text=...)` substitutes. -/
inductive ETmpl where
  | lit (s : String)
  | code
  | text

/-- A parsed `description_format` template string: literal pieces and
the `\x7bline\x7d` / `\x7bcolumn\x7d` / `\x7btext\x7d` placeholders. -/
inductive DTmpl where
  | lit (s : String)
  | line
  | column
  | text

/-- `self.error_format.format(code=error.code, text=error.text)`. -/
def renderError (fmt : List ETmpl) (c t : String) : String :=
  fmt.foldl (fun acc it =>
    acc ++ (match it with
            | ETmpl.lit s => s
            | ETmpl.code => c
            | ETmpl.text => t)) ""

/-- `self.description_format.format(line=..., column=..., text=...)`. -/
def renderDesc (fmt : List DTmpl) (ln col : Nat) (t : String) : String :=
  fmt.foldl (fun acc it =>
    acc ++ (match it with
            | DTmpl.lit s => s
            | DTmpl.line => toString ln
            | DTmpl.column => toString col
            | DTmpl.text => t)) ""

/-- The source's default `error_format`,
`'\x7bcode\x7dÂ : \x7btext\x7d'` (the separator bytes decode to
U+00C2 followed by a no-break space, then a colon and a space). -/
def default_error_format : List ETmpl :=
  [ETmpl.code, ETmpl.lit "Â : ", ETmpl.text]

/-- The source's default `description_format`,
`'L\x7bline\x7d:C\x7bcolumn\x7d \x7btext\x7d'`. -/
def default_description_format : List DTmpl :=
  [DTmpl.lit "L", DTmpl.line, DTmpl.lit ":C", DTmpl.column, DTmpl.lit " ", DTmpl.text]

/-- `PythonLintCommand._get_description`: render the description with
the literal placeholder `\x7btext\x7d` as text, locate that placeholder
(`str.find`, `-1` when absent), then substitute the stripped line text. -/
def get_description (descFmt : List DTmpl) (e : Error) (text : String) :
    Int × String :=
  let located := renderDesc descFmt e.line e.offset "\x7btext\x7d"
  let text_offset := strFind located "\x7btext\x7d"
  let description := pyReplace located "\x7btext\x7d" (strip text)
  (text_offset, description)

/-- The cursor line of `_format_error`:
`'^'.rjust(error.offset - leading_spaces + text_offset + 1)` when the
line text is non-blank and the placeholder was found, else `''`. -/
def cursor_line (e : Error) (text : String) (text_offset : Int) : String :=
  if strip text ≠ "" ∧ text_offset ≠ -1 then
    rjust "^" ((e.offset : Int) - (leading_count text : Int) + text_offset + 1)
  else ""

/-- The settings `_format_error` reads (templates pre-parsed, as Python
pre-parses format strings on use). -/
structure LintSettings where
  show_error_description : Bool
  show_error_offset_cursor : Bool
  error_format : List ETmpl
  description_format : List DTmpl

/-- `_format_error` returns a plain string or a quick-panel block. -/
inductive Formatted where
  | single (s : String)
  | block (items : List String)
deriving DecidableEq, Repr

/-- `PythonLintCommand._format_error`.  `lineText` is the host's
`view.substr(view.line(view.text_point(error.line - 1, error.offset)))`,
an external collaborator, hence a parameter. -/
def format_error (st : LintSettings) (lineText : String) (e : Error) :
    Formatted :=
  let base_error :=
    match e.code with
    | some c => renderError st.error_format c e.text
    | none => e.text
  if st.show_error_description then
    let p := get_description st.description_format e lineText
    let error_block := [base_error, p.2]
    if st.show_error_offset_cursor then
      Formatted.block (error_block ++ [cursor_line e lineText p.1])
    else
      Formatted.block error_block
  else
    Formatted.single base_error

/-- `PythonLintCommand._on_select`: inside bounds, hand the host the
buffer position `text_point(error.line - 1, error.offset)` (the host
clamps it); out of bounds, do nothing (`none`). -/
def on_select (error_list : List Error) (index : Int) : Option (Int × Int) :=
  if 0 ≤ index ∧ index < (error_list.length : Int) then
    match error_list.get? index.toNat with
    | some e => some ((e.line : Int) - 1, (e.offset : Int))
    | none => none
  else none

/-- Formalisation of the claim wording for the PEP8 message transform,
kept for refinement comparison against `upper_first`: uppercase the
FIRST ALPHABETIC character, leave every other character untouched. -/
def upperFirstAlphaAux : List Char → List Char
  | [] => []
  | c :: rest => if c.isAlpha then c.toUpper :: rest else c :: upperFirstAlphaAux rest

/-- String version of `upperFirstAlphaAux`. -/
def upperFirstAlpha (s : String) : String :=
  String.mk (upperFirstAlphaAux s.data)

-- ---- HELPER LEMMAS

/-- On a non-`None` code, the eager `any(...)` never raises and computes
the boolean prefix test. -/
lemma anyIgnored_some (c : String) (l : List String) :
    anyIgnored (some c) l = Except.ok (l.any fun ig => startswith c ig) := by
  induction l with
  | nil => rfl
  | cons ig rest ih =>
    by_cases h : startswith c ig <;> simp [anyIgnored, h, ih]

/-- On a `None` code, the eager `any(...)` succeeds only over an empty
ignore list, and then yields `false`. -/
lemma anyIgnored_none (l : List String) (b : Bool)
    (h : anyIgnored none l = Except.ok b) : l = [] ∧ b = false := by
  cases l with
  | nil =>
    refine ⟨rfl, ?_⟩
    simpa [anyIgnored] using h.symm
  | cons ig rest => simp [anyIgnored] at h

/-- Case analysis of one `_merge_errors` loop iteration. -/
lemma merge_step_eq (ig : List String) (acc : List Error) (e : Error) :
    merge_step ig acc e =
      match anyIgnored e.code ig with
      | Except.error m => Except.error m
      | Except.ok b =>
          Except.ok (if e.code.isNone || !b then acc ++ [e] else acc) := by
  cases h : anyIgnored e.code ig with
  | error m => simp [merge_step, h, Bind.bind, Except.bind]
  | ok b =>
    by_cases hc : (e.code.isNone || !b) = true <;>
      simp_all [merge_step, h, Bind.bind, Except.bind, Pure.pure, Except.pure]

/-- The kept/dropped decision agrees with `keep` whenever the iteration
does not raise. -/
lemma merge_step_keep (ig : List String) (e : Error) (b : Bool)
    (h : anyIgnored e.code ig = Except.ok b) :
    (e.code.isNone || !b) = keep ig e := by
  cases hc : e.code with
  | none =>
    rcases anyIgnored_none ig b (hc ▸ h) with ⟨h1, h2⟩
    simp [keep, hc, h2]
  | some c =>
    rw [hc, anyIgnored_some] at h
    cases h
    simp [keep, hc]

/-- A successful `_merge_errors` loop over `l` appends exactly the
elements of `l` that pass the ignore filter, in order. -/
lemma merge_loop_ok (ig : List String) (l : List Error) :
    ∀ acc out, l.foldlM (merge_step ig) acc = Except.ok out →
      out = acc ++ l.filter (keep ig) := by
  induction l with
  | nil =>
    intro acc out h
    simp [List.foldlM, Pure.pure, Except.pure] at h
    simp [h]
  | cons e rest ih =>
    intro acc out h
    rw [List.foldlM_cons, merge_step_eq] at h
    cases hae : anyIgnored e.code ig with
    | error m => simp [hae, Bind.bind, Except.bind] at h
    | ok b =>
      rw [hae] at h
      simp only [Bind.bind, Except.bind] at h
      have hk := merge_step_keep ig e b hae
      by_cases hkeep : keep ig e = true
      · rw [hk, hkeep, if_pos rfl] at h
        have := ih (acc ++ [e]) out h
        simp [this, List.filter_cons, hkeep]
      · have hkf : keep ig e = false := by
          cases hkk : keep ig e
          · rfl
          · exact absurd hkk hkeep
        rw [hk, hkf] at h
        simp only [Bool.false_eq_true, if_false] at h
        have := ih acc out h
        simp [this, List.filter_cons, hkf]

/-- A successful `_merge_errors` run filters the concatenation
(PyFlakes list first) by the ignore predicate. -/
lemma merge_ok_filter (pf p8 : List Error) (ig : List String)
    (out : List Error) (h : merge_errors pf p8 ig = Except.ok out) :
    out = pf.filter (keep ig) ++ p8.filter (keep ig) := by
  have := merge_loop_ok ig (pf ++ p8) [] out h
  simpa [List.filter_append] using this

/-- With an empty ignore list the loop never raises and keeps
everything. -/
lemma merge_loop_empty_ignore (l : List Error) :
    ∀ acc, l.foldlM (merge_step []) acc = Except.ok (acc ++ l) := by
  induction l with
  | nil => intro acc; simp [List.foldlM, Pure.pure, Except.pure]
  | cons e rest ih =>
    intro acc
    rw [List.foldlM_cons, merge_step_eq]
    cases hc : e.code <;>
      simp [anyIgnored, hc, Bind.bind, Except.bind, ih]

/-- Rebuilding a string from its character list is the identity. -/
lemma mk_data (s : String) : String.mk s.data = s := by
  cases s
  rfl

/-- `'^'.rjust(w)` for a positive target width: `w - 1` spaces then the
caret. -/
lemma rjust_caret_pos (w : Int) (h : 1 ≤ w) :
    rjust "^" w = String.mk (List.replicate (w - 1).toNat ' ') ++ "^" := by
  unfold rjust
  by_cases h1 : (("^" : String).length : Int) < w
  · rw [if_pos h1]
    have hl : ("^" : String).length = 1 := rfl
    rw [hl, Nat.cast_one]
  · rw [if_neg h1]
    have hl : (("^" : String).length : Int) = 1 := by decide
    rw [hl] at h1
    have : w = 1 := le_antisymm (not_lt.mp h1) h
    subst this
    decide

/-- `'^'.rjust(w)` for a width below one returns `'^'` unchanged. -/
lemma rjust_caret_neg (w : Int) (h : w < 1) : rjust "^" w = "^" := by
  unfold rjust
  rw [if_neg]
  have hl : (("^" : String).length : Int) = 1 := by decide
  rw [hl]
  omega

/-- The cursor line is always the empty string or spaces followed by a
single caret. -/
lemma cursor_line_cases (e : Error) (text : String) (toff : Int) :
    cursor_line e text toff = "" ∨
    ∃ k : Nat, cursor_line e text toff = String.mk (List.replicate k ' ') ++ "^" := by
  unfold cursor_line
  by_cases h : strip text ≠ "" ∧ toff ≠ -1
  · right
    rw [if_pos h]
    by_cases hw : 1 ≤ (e.offset : Int) - (leading_count text : Int) + toff + 1
    · exact ⟨_, rjust_caret_pos _ hw⟩
    · refine ⟨0, ?_⟩
      rw [rjust_caret_neg _ (not_le.mp hw)]
      decide
  · left
    rw [if_neg h]

/-- `text.split(' ', 1)[1]` on `tok ++ ' ' ++ desc` with a space-free
`tok` yields `desc`. -/
lemma splitRest_append (tok desc : List Char) (h : ' ' ∉ tok) :
    splitRest (tok ++ ' ' :: desc) = some desc := by
  induction tok with
  | nil => simp [splitRest]
  | cons c rest ih =>
    have hc : ¬(c = ' ') := by
      intro hc
      exact h (hc ▸ List.mem_cons_self c rest)
    have hr : ' ' ∉ rest := fun hm => h (List.mem_cons_of_mem c hm)
    simp [splitRest, hc, ih hr]

-- ---- CLAIM THEOREMS

/-- C1: evaluation of `_merge_errors` at the failing input.  The claim
says a diagnostic with null `code` is never suppressed and the merge
keeps it without failing, for every ignore list.  The code computes
`ignored = any(error.code.startswith(ignore) for ignore in ignore_list)`
eagerly, before the `error.code is None` test, so a null-code
diagnostic together with a non-empty ignore list raises AttributeError
(first conjunct).  The intended behaviour shows in the other branches:
an `E501` diagnostic is dropped by ignore entry `E5`, and the null-code
diagnostic is kept when the ignore list is empty. -/
theorem c1_merge_null_code_crash :
    merge_errors [⟨none, 1, 0, "Msg"⟩] [] ["E5"] = Except.error "AttributeError" ∧
    merge_errors [] [⟨some "E501", 2, 0, "Line too long"⟩] ["E5"] = Except.ok [] ∧
    merge_errors [⟨none, 1, 0, "Msg"⟩] [] [] = Except.ok [⟨none, 1, 0, "Msg"⟩] := by
  refine ⟨rfl, rfl, rfl⟩

/-- C2: whenever `_merge_errors` completes, its output is the PyFlakes
survivors followed by the PEP8 survivors, each group a filter of its
input, hence a sublist in the original relative order: no reordering by
line number. -/
theorem c2_merge_order (pf p8 : List Error) (ig : List String)
    (out : List Error) (h : merge_errors pf p8 ig = Except.ok out) :
    out = pf.filter (keep ig) ++ p8.filter (keep ig) ∧
    (pf.filter (keep ig)).Sublist pf ∧
    (p8.filter (keep ig)).Sublist p8 :=
  ⟨merge_ok_filter pf p8 ig out h, List.filter_sublist pf, List.filter_sublist p8⟩

/-- C2 witness: a concrete successful merge with one PyFlakes and one
PEP8 diagnostic and an empty ignore list. -/
theorem c2_merge_order_witness :
    [Error.mk none 1 0 "A", Error.mk (some "E501") 2 0 "U"] =
      [Error.mk none 1 0 "A"].filter (keep []) ++
        [Error.mk (some "E501") 2 0 "U"].filter (keep []) ∧
    ([Error.mk none 1 0 "A"].filter (keep [])).Sublist [Error.mk none 1 0 "A"] ∧
    ([Error.mk (some "E501") 2 0 "U"].filter (keep [])).Sublist
      [Error.mk (some "E501") 2 0 "U"] :=
  c2_merge_order [Error.mk none 1 0 "A"] [Error.mk (some "E501") 2 0 "U"] []
    [Error.mk none 1 0 "A", Error.mk (some "E501") 2 0 "U"] rfl

/-- C3: a completed merge is never longer than its inputs combined; an
empty ignore list makes the merge succeed with exactly the
concatenation (so the lengths add up); two empty inputs merge to the
empty list. -/
theorem c3_merge_length (pf p8 : List Error) (ig : List String)
    (out : List Error) (h : merge_errors pf p8 ig = Except.ok out) :
    out.length ≤ pf.length + p8.length ∧
    merge_errors pf p8 [] = Except.ok (pf ++ p8) ∧
    (pf ++ p8).length = pf.length + p8.length ∧
    merge_errors ([] : List Error) [] ig = Except.ok [] := by
  refine ⟨?_, ?_, List.length_append pf p8, ?_⟩
  · rw [merge_ok_filter pf p8 ig out h, List.length_append]
    exact Nat.add_le_add (List.length_filter_le _ pf) (List.length_filter_le _ p8)
  · simpa [merge_errors] using merge_loop_empty_ignore (pf ++ p8) []
  · rfl

/-- C3 witness: concrete instance with a dropped diagnostic, showing a
strictly shorter output is still bounded and the empty-ignore merge is
the concatenation. -/
theorem c3_merge_length_witness :
    ([] : List Error).length ≤
      ([Error.mk (some "E501") 2 0 "U"] : List Error).length +
        ([] : List Error).length ∧
    merge_errors [Error.mk (some "E501") 2 0 "U"] [] [] =
      Except.ok ([Error.mk (some "E501") 2 0 "U"] ++ []) ∧
    ([Error.mk (some "E501") 2 0 "U"] ++ ([] : List Error)).length =
      ([Error.mk (some "E501") 2 0 "U"] : List Error).length +
        ([] : List Error).length ∧
    merge_errors ([] : List Error) [] ["E5"] = Except.ok [] :=
  c3_merge_length [Error.mk (some "E501") 2 0 "U"] [] ["E5"] [] rfl

/-- C4 counterexample: the claim says the description's first
ALPHABETIC character is uppercased.  `upper_first` uppercases the first
CHARACTER, a no-op on a non-letter: on the raw message
`E999 \x27x\x27 undefined` the code stores `\x27x\x27 undefined`
unchanged, while the claim wording demands `\x27X\x27 undefined`. -/
theorem c4_capitalize_counterexample :
    pep8_report_error 0 [] (some "E999") 1 0 "E999 \x27x\x27 undefined" =
      Except.ok [⟨some "E999", 1, 0, "\x27x\x27 undefined"⟩] ∧
    upperFirstAlpha "\x27x\x27 undefined" = "\x27X\x27 undefined" ∧
    ("\x27x\x27 undefined" : String) ≠ "\x27X\x27 undefined" := by
  refine ⟨rfl, rfl, by decide⟩

/-- C4 (amended): for a raw style report `TOK description` with a
space-free leading token, the stored text is the description, stripped,
with its first character uppercased by `upper_first`; a first character
that is not a lowercase letter is left as is (so a description opening
with a non-letter is stored unchanged).  The message
`undefined name \x27x\x27` capitalizes to `Undefined name \x27x\x27`,
and a string whose first character has no distinct uppercase form is
unchanged. -/
theorem c4_pep8_text_amended (lo ln off : Nat) (el : List Error)
    (c tok desc : String) (htok : ' ' ∉ tok.data) :
    pep8_report_error lo el (some c) ln off (tok ++ " " ++ desc) =
      Except.ok (el ++ [⟨some c, lo + ln, off, upper_first (strip desc)⟩]) ∧
    upper_first "undefined name \x27x\x27" = "Undefined name \x27x\x27" ∧
    (∀ (ch : Char) (rest : List Char), ch.toUpper = ch →
      upper_first (String.mk (ch :: rest)) = String.mk (ch :: rest)) := by
  refine ⟨?_, rfl, ?_⟩
  · unfold pep8_report_error
    have hdata : (tok ++ " " ++ desc).data = tok.data ++ ' ' :: desc.data := by
      rw [String.data_append, String.data_append, List.append_assoc]
      rfl
    rw [hdata, splitRest_append tok.data desc.data htok]
  · intro ch rest hch
    simp [upper_first, hch]

/-- C4 witness: concrete instance of the amended statement on the
report `E501 line too long`. -/
theorem c4_pep8_text_witness :
    pep8_report_error 0 [] (some "E501") 3 0 ("E501" ++ " " ++ "line too long") =
      Except.ok ([] ++ [⟨some "E501", 0 + 3, 0, upper_first (strip "line too long")⟩]) ∧
    upper_first "undefined name \x27x\x27" = "Undefined name \x27x\x27" ∧
    (∀ (ch : Char) (rest : List Char), ch.toUpper = ch →
      upper_first (String.mk (ch :: rest)) = String.mk (ch :: rest)) :=
  c4_pep8_text_amended 0 3 0 [] "E501" "E501" "line too long" (by decide)

/-- C5: a diagnostic with `line = 0` formats without raising — the
result is a plain string or a two/three line block whose cursor line is
empty or spaces followed by a single caret (no negative padding) — and
selecting it yields the host point `(line - 1, offset) = (-1, offset)`
rather than a failure. -/
theorem c5_line_zero_degenerates (st : LintSettings) (lineText : String)
    (e : Error) (h : e.line = 0) :
    ((∃ s, format_error st lineText e = Formatted.single s) ∨
     (∃ b d, format_error st lineText e = Formatted.block [b, d]) ∨
     (∃ b d, format_error st lineText e = Formatted.block [b, d, ""]) ∨
     (∃ b d k, format_error st lineText e =
        Formatted.block [b, d, String.mk (List.replicate k ' ') ++ "^"])) ∧
    on_select [e] 0 = some (-1, (e.offset : Int)) := by
  obtain ⟨sd, sc, ef, df⟩ := st
  constructor
  · cases sd
    · exact Or.inl ⟨_, rfl⟩
    · cases sc
      · exact Or.inr (Or.inl ⟨_, _, rfl⟩)
      · have hfmt : format_error ⟨true, true, ef, df⟩ lineText e =
            Formatted.block
              [(match e.code with
                | some c => renderError ef c e.text
                | none => e.text),
               (get_description df e lineText).2,
               cursor_line e lineText (get_description df e lineText).1] := rfl
        rcases cursor_line_cases e lineText
            (get_description df e lineText).1 with hcur | ⟨k, hcur⟩
        · exact Or.inr (Or.inr (Or.inl ⟨_, _, by rw [hfmt, hcur]⟩))
        · exact Or.inr (Or.inr (Or.inr ⟨_, _, k, by rw [hfmt, hcur]⟩))
  · simp [on_select, h]

/-- C5 witness: a whole-file PyFlakes failure record at `line = 0`,
formatted with all display options on. -/
theorem c5_line_zero_witness :
    ((∃ s, format_error ⟨true, true, default_error_format, default_description_format⟩
        "x" ⟨none, 0, 0, "m"⟩ = Formatted.single s) ∨
     (∃ b d, format_error ⟨true, true, default_error_format, default_description_format⟩
        "x" ⟨none, 0, 0, "m"⟩ = Formatted.block [b, d]) ∨
     (∃ b d, format_error ⟨true, true, default_error_format, default_description_format⟩
        "x" ⟨none, 0, 0, "m"⟩ = Formatted.block [b, d, ""]) ∨
     (∃ b d k, format_error ⟨true, true, default_error_format, default_description_format⟩
        "x" ⟨none, 0, 0, "m"⟩ =
          Formatted.block [b, d, String.mk (List.replicate k ' ') ++ "^"])) ∧
    on_select [⟨none, 0, 0, "m"⟩] 0 = some (-1, ((0 : Nat) : Int)) :=
  c5_line_zero_degenerates ⟨true, true, default_error_format, default_description_format⟩
    "x" ⟨none, 0, 0, "m"⟩ rfl

/-- C6 counterexample: for the line of ten leading spaces, an error at
`offset = 0` (as PEP8 indentation rules emit) and the placeholder at
offset `6` of the default description format, the computed width
`offset - leading + text_offset + 1 = -3` is below one, so `rjust`
degenerates and the caret sits at index `0` of `"^"` instead of the
claimed `offset - leading + text_offset = -4`; the caret line is not
the empty string either. -/
theorem c6_caret_counterexample :
    (get_description default_description_format
        ⟨some "W191", 1, 0, "T"⟩ "          x").1 = 6 ∧
    format_error ⟨true, true, default_error_format, default_description_format⟩
        "          x" ⟨some "W191", 1, 0, "T"⟩ =
      Formatted.block ["W191Â : T", "L1:C0 x", "^"] ∧
    ("^" : String) ≠ "" ∧
    (0 : Int) - (leading_count "          x" : Int) + 6 ≠ 0 :=
  ⟨rfl, rfl, by decide, by decide⟩

/-- C6 (amended): with a non-blank line and a found placeholder, when
`offset - leading + text_offset + 1 ≥ 1` the cursor line is exactly
that many minus one spaces followed by one `^` (caret column
`offset - leading + 1` relative to the trimmed text, shifted by the
placeholder offset); when that width is below one the cursor line
degenerates to the bare `"^"`; a blank line or a missing placeholder
(`text_offset = -1`) gives the empty string, never a failure. -/
theorem c6_caret_amended (e : Error) (text : String) (toff : Int)
    (hb : strip text ≠ "") (hf : toff ≠ -1) :
    (1 ≤ (e.offset : Int) - (leading_count text : Int) + toff + 1 →
      cursor_line e text toff =
        String.mk (List.replicate
          ((e.offset : Int) - (leading_count text : Int) + toff).toNat ' ') ++ "^") ∧
    ((e.offset : Int) - (leading_count text : Int) + toff + 1 < 1 →
      cursor_line e text toff = "^") ∧
    (∀ t : String, strip t = "" → cursor_line e t toff = "") ∧
    cursor_line e text (-1) = "" := by
  refine ⟨?_, ?_, ?_, ?_⟩
  · intro hw
    unfold cursor_line
    rw [if_pos ⟨hb, hf⟩, rjust_caret_pos _ hw]
    have harith : (e.offset : Int) - (leading_count text : Int) + toff + 1 - 1 =
        (e.offset : Int) - (leading_count text : Int) + toff := by ring
    rw [harith]
  · intro hw
    unfold cursor_line
    rw [if_pos ⟨hb, hf⟩, rjust_caret_neg _ hw]
  · intro t ht
    unfold cursor_line
    rw [if_neg]
    simp [ht]
  · unfold cursor_line
    rw [if_neg]
    simp

/-- C6 witness: the claim's own scenario — line `"    x=1"`, offset 5,
default description format (placeholder offset 6) — yields seven spaces
then the caret: column `offset - leading + 1 = 2` relative to the
trimmed text, shifted by the placeholder offset. -/
theorem c6_caret_witness :
    cursor_line ⟨some "E225", 1, 5, "Missing whitespace around operator"⟩
      "    x=1" 6 = "       ^" := by
  have h := (c6_caret_amended ⟨some "E225", 1, 5, "Missing whitespace around operator"⟩
    "    x=1" 6 (by decide) (by decide)).1 (by decide)
  rw [h]
  decide

/-- C7: an unexpected PyFlakes backend failure is recorded as exactly
one appended diagnostic with null code, `line = 0`, `offset = 0` and
the capitalized message; the callback is total, nothing is thrown. -/
theorem c7_unexpected_single_diagnostic (l : List Error) (filename msg : String) :
    pyflakes_report l (PFEvent.unexpected filename msg) =
      l ++ [⟨none, 0, 0, upper_first msg⟩] := rfl

/-- C8 counterexample: the source's default `error_format` separator is
the two characters U+00C2 and U+00A0 followed by colon and space (a
mojibake of a no-break space), so the minimal form of an `E501`
diagnostic is not the claimed `"E501 : Line too long"`. -/
theorem c8_minimal_form_counterexample :
    format_error ⟨false, true, default_error_format, default_description_format⟩ ""
        ⟨some "E501", 1, 0, "Line too long"⟩ =
      Formatted.single "E501Â : Line too long" ∧
    ("E501Â : Line too long" : String) ≠ "E501 : Line too long" :=
  ⟨rfl, by decide⟩

/-- C8 (amended): with descriptions off, the presenter renders the
single string produced by substituting code and text into the
configured `error_format` when `code` is non-null — with the source's
default template that is `code`, then U+00C2 U+00A0 and `": "`, then
the text — and the text alone when `code` is null. -/
theorem c8_minimal_form_amended (st : LintSettings) (lineText : String)
    (e : Error) (h : st.show_error_description = false) :
    format_error st lineText e =
      Formatted.single (match e.code with
        | some c => renderError st.error_format c e.text
        | none => e.text) ∧
    (∀ (t : String) (ln off : Nat),
      format_error st lineText ⟨none, ln, off, t⟩ = Formatted.single t) ∧
    renderError default_error_format "E501" "Line too long" =
      "E501Â : Line too long" := by
  obtain ⟨sd, sc, ef, df⟩ := st
  have h2 : sd = false := h
  subst h2
  exact ⟨rfl, fun t ln off => rfl, rfl⟩

/-- C8 witness: concrete minimal-form rendering with the default
template, for a coded and a code-less diagnostic. -/
theorem c8_minimal_form_witness :
    format_error ⟨false, false, default_error_format, default_description_format⟩ ""
        ⟨some "E501", 1, 0, "Line too long"⟩ =
      Formatted.single (renderError default_error_format "E501" "Line too long") ∧
    (∀ (t : String) (ln off : Nat),
      format_error ⟨false, false, default_error_format, default_description_format⟩ ""
        ⟨none, ln, off, t⟩ = Formatted.single t) ∧
    renderError default_error_format "E501" "Line too long" =
      "E501Â : Line too long" :=
  c8_minimal_form_amended ⟨false, false, default_error_format, default_description_format⟩
    "" ⟨some "E501", 1, 0, "Line too long"⟩ rfl

/-- C9: an out-of-range selection index — negative or at least the list
length — makes `_on_select` a no-op: it returns no host point and
touches nothing. -/
theorem c9_on_select_out_of_range (l : List Error) (i : Int)
    (h : i < 0 ∨ (l.length : Int) ≤ i) : on_select l i = none := by
  have hn : ¬(0 ≤ i ∧ i < (l.length : Int)) := by
    rintro ⟨h1, h2⟩
    rcases h with h | h <;> omega
  unfold on_select
  rw [if_neg hn]

/-- C9 witness: index 5 on a one-element list is a no-op. -/
theorem c9_on_select_witness :
    on_select [⟨none, 1, 0, "A"⟩] 5 = none :=
  c9_on_select_out_of_range [⟨none, 1, 0, "A"⟩] 5 (Or.inr (by decide))

/-- Each PyFlakes reporter callback appends only null-code records. -/
lemma pyflakes_report_preserves_none (l : List Error) (ev : PFEvent)
    (h : ∀ e ∈ l, e.code = none) :
    ∀ e ∈ pyflakes_report l ev, e.code = none := by
  cases ev with
  | unexpected f m =>
    intro e he
    rcases List.mem_append.mp he with h1 | h1
    · exact h e h1
    · simp at h1
      subst h1
      rfl
  | synErr f m ln off t =>
    intro e he
    rcases List.mem_append.mp he with h1 | h1
    · exact h e h1
    · simp at h1
      subst h1
      rfl
  | flake ln col m =>
    intro e he
    rcases List.mem_append.mp he with h1 | h1
    · exact h e h1
    · simp at h1
      subst h1
      rfl

/-- Any run of PyFlakes callbacks from a null-code state leaves every
record's code null. -/
lemma pyflakes_fold_none (events : List PFEvent) :
    ∀ init : List Error, (∀ e ∈ init, e.code = none) →
      ∀ e ∈ events.foldl pyflakes_report init, e.code = none := by
  induction events with
  | nil => exact fun init h => h
  | cons ev rest ih =>
    intro init h
    exact ih (pyflakes_report init ev)
      (pyflakes_report_preserves_none init ev h)

/-- C10: every diagnostic the PyFlakes adapter ever produces — from an
unexpected failure, a syntax error, or a flake — carries `code = None`,
and a completed merge never suppresses a null-code diagnostic, so
ignore prefixes can only remove PEP8 diagnostics. -/
theorem c10_pyflakes_null_code (events : List PFEvent) (init : List Error)
    (hinit : ∀ e ∈ init, e.code = none)
    (pf p8 : List Error) (ig : List String) (out : List Error)
    (hm : merge_errors pf p8 ig = Except.ok out) :
    (∀ e ∈ events.foldl pyflakes_report init, e.code = none) ∧
    (∀ e, e ∈ pf ++ p8 → e.code = none → e ∈ out) := by
  constructor
  · exact pyflakes_fold_none events init hinit
  · intro e he hcode
    rw [merge_ok_filter pf p8 ig out hm]
    have hkeep : keep ig e = true := by
      simp [keep, hcode]
    rcases List.mem_append.mp he with h1 | h1
    · exact List.mem_append.mpr (Or.inl (List.mem_filter.mpr ⟨h1, hkeep⟩))
    · exact List.mem_append.mpr (Or.inr (List.mem_filter.mpr ⟨h1, hkeep⟩))

/-- C10 witness: one unexpected-failure callback from an empty state,
merged with an empty ignore list. -/
theorem c10_pyflakes_null_code_witness :
    (∀ e ∈ ([PFEvent.unexpected "f" "boom"].foldl pyflakes_report ([] : List Error)),
      e.code = none) ∧
    (∀ e, e ∈ [Error.mk none 1 0 "A"] ++ ([] : List Error) → e.code = none →
      e ∈ [Error.mk none 1 0 "A"]) :=
  c10_pyflakes_null_code [PFEvent.unexpected "f" "boom"] [] (by simp)
    [Error.mk none 1 0 "A"] [] [] [Error.mk none 1 0 "A"] rfl

end PythonLinter
